import Mathlib

/-!
Verification development for the settings panel of the openai-translator
popup (src/popup/Settings.tsx). The file embeds the handlers of the
`Settings` form controller, the `AutoTranslateCheckbox` wrapper and the
`HotkeyRecorder` widget as pure Lean functions over explicit state, and
proves the specified properties about them.

JavaScript string primitives (split, trim, toLowerCase, a global replace
of a single character, join) are embedded as structurally recursive
functions over the character list of a `String`, so that every definition
evaluates inside the kernel.
-/

namespace OpenAITranslator

/-! ## JavaScript string primitives -/

/-- Splitting of a character list at every occurrence of a separator
character; the embedding of `String.prototype.split` with a one-character
separator. Splitting the empty list yields one empty piece, as in
JavaScript. -/
def splitOnChar (sep : Char) : List Char → List (List Char)
  | [] => [[]]
  | c :: cs =>
    if c = sep then [] :: splitOnChar sep cs
    else
      match splitOnChar sep cs with
      | [] => [[c]]
      | r :: rs => (c :: r) :: rs

/-- Splitting of a string on the "+" character, piecewise as strings. -/
def splitOnPlus (s : String) : List String :=
  (splitOnChar '+' s.data).map String.mk

/-- The global replacement of every "-" by "+", the embedding of the
`replace` call with a global dash regex in `HotkeyRecorder`. -/
def replaceDashWithPlus (s : String) : String :=
  String.mk (s.data.map fun c => if c = '-' then '+' else c)

/-- The embedding of `String.prototype.trim`: leading and trailing
whitespace characters are removed. -/
def jsTrim (s : String) : String :=
  String.mk
    (((s.data.dropWhile Char.isWhitespace).reverse.dropWhile
      Char.isWhitespace).reverse)

/-- The embedding of `String.prototype.toLowerCase`, characterwise. -/
def jsToLower (s : String) : String :=
  String.mk (s.data.map Char.toLower)

/-! ## HotkeyRecorder -/

/-- Parsing of an incoming external hotkey value, from the effect on
`props.value` in `HotkeyRecorder`: every "-" is replaced by "+", the
result is split on "+", each piece is trimmed, and falsy (empty) pieces
are dropped by `filter(Boolean)`. -/
def parseHotkeyValue (v : String) : List String :=
  ((splitOnPlus (replaceDashWithPlus v)).map jsTrim).filter fun k => k ≠ ""

/-- The effect of `HotkeyRecorder` on `props.value`: the displayed key
state is re-seeded only when the incoming value is truthy (a non-empty
string); otherwise the displayed keys are left unchanged. -/
def seedEffect (v : String) (hotKeys : List String) : List String :=
  if v ≠ "" then parseHotkeyValue v else hotKeys

/-- The effect of `HotkeyRecorder` on the live recorded key set `keys`:
when the set is non-empty, every key whose lowercase form is "meta" is
filtered out, the filtered list becomes the displayed keys and is emitted
joined with "+" through `onChange`; when the set is empty, nothing
happens. The result is the new displayed key list paired with the emitted
value, when any. -/
def keysEffect (keys : List String) (hotKeys : List String) :
    List String × Option String :=
  if keys.length > 0 then
    let ks := keys.filter fun k => jsToLower k ≠ "meta"
    (ks, some (String.intercalate "+" ks))
  else (hotKeys, none)

/-- The effect of `HotkeyRecorder` on `isRecording`: on the transition to
idle the currently displayed key list is joined with "+" and emitted
through `onChange`. -/
def stopEmit (hotKeys : List String) : String :=
  String.intercalate "+" hotKeys

/-- Test for a "meta" component (in any letter case) of a committed
"+"-joined hotkey string. -/
def hasMetaComponent (s : String) : Bool :=
  (splitOnPlus s).any fun k => jsToLower k = "meta"

example : parseHotkeyValue "ctrl-k" = ["ctrl", "k"] := by decide
example : parseHotkeyValue "ctrl + k" = ["ctrl", "k"] := by decide
example : seedEffect "meta+k" [] = ["meta", "k"] := by decide
example : hasMetaComponent (stopEmit ["meta", "k"]) = true := by decide

/-! ## The Settings form controller -/

/-- The persisted settings record (`utils.ISettings` as used by
`Settings.tsx`): API keys, endpoint URL, auto-translate flag, default
translate mode, default target language and the hotkey string. The
translate mode is kept as a string, matching the string literals of the
source. -/
structure ISettings where
  apiKeys : String
  apiURL : String
  autoTranslate : Bool
  defaultTranslateMode : String
  defaultTargetLanguage : String
  hotkey : String
deriving DecidableEq, Repr

/-- The state of the `Settings` component relevant to the persistence
flow: the form snapshot `values`, the last-persisted baseline
`prevValues`, and the log of `setSettings` calls issued so far (most
recent last). -/
structure PanelState where
  values : ISettings
  prevValues : ISettings
  writes : List ISettings
deriving DecidableEq, Repr

/-- The initial form snapshot of `Settings`, from the `useState`
initializer: empty API keys, the default URL, the default auto-translate
flag, the "translate" mode, the default target language and an empty
hotkey. The default URL, flag and language come from the external
`utils` module and are abstract parameters here. -/
def initialValues (dURL : String) (dAuto : Bool) (dLang : String) :
    ISettings :=
  { apiKeys := ""
    apiURL := dURL
    autoTranslate := dAuto
    defaultTranslateMode := "translate"
    defaultTargetLanguage := dLang
    hotkey := "" }

/-- The `Settings` state before the asynchronous settings load resolves:
`values` holds the built-in defaults and `prevValues` is initialized to
the same record; no write has been issued. -/
def initPanel (dURL : String) (dAuto : Bool) (dLang : String) :
    PanelState :=
  { values := initialValues dURL dAuto dLang
    prevValues := initialValues dURL dAuto dLang
    writes := [] }

/-- Resolution of the mount-time `getSettings` load with the persisted
record `s`: both `values` and `prevValues` are set to `s`. -/
def loadResolved (st : PanelState) (s : ISettings) : PanelState :=
  { st with values := s, prevValues := s }

/-- The truthiness of the `values.apiKeys` string together with the deep
inequality check of the `onBlur` guard:
`values.apiKeys && !_.isEqual(values, prevValues)`. -/
def blurGuard (st : PanelState) : Prop :=
  st.values.apiKeys ≠ "" ∧ st.values ≠ st.prevValues

instance (st : PanelState) : Decidable (blurGuard st) := by
  unfold blurGuard; infer_instance

/-- The `onBlur` handler of `Settings`: when the API keys string is
non-empty and the snapshot differs from the baseline, `setSettings` is
called with the snapshot and the baseline is updated to it; otherwise
nothing happens. -/
def onBlur (st : PanelState) : PanelState :=
  if blurGuard st then
    { st with writes := st.writes ++ [st.values], prevValues := st.values }
  else st

/-- The state effect of the `onSubmmit` handler: `setSettings(data)` is
called with the submitted snapshot; `values` and `prevValues` are not
touched by the handler. -/
def submitPanel (st : PanelState) (d : ISettings) : PanelState :=
  { st with writes := st.writes ++ [d] }

/-- The `onValuesChange` path for a toggle of the auto-translate
checkbox: the form pushes the updated snapshot into `values` through
`setValues`. -/
def applyAutoTranslateChange (st : PanelState) (b : Bool) : PanelState :=
  { st with values := { st.values with autoTranslate := b } }

/-! ## The submit handler as an event trace -/

/-- Observable actions of the `onSubmmit` handler, in program order. -/
inductive Event where
  | setLoading (b : Bool)
  | write (s : ISettings)
  | toast (msg : String) (duration : Nat)
  | save (s : ISettings)
deriving DecidableEq, Repr

/-- The `onSubmmit` handler of `Settings` as the trace of its observable
actions, given whether the awaited `setSettings` promise fulfills
(`ok = true`) or rejects: the loading flag is set, the write is issued,
and only when the await fulfills do the toast (duration 3000), the
clearing of the loading flag and the `onSave` callback follow; a
rejection propagates out of the handler and skips the rest. -/
def onSubmmitEvents (d : ISettings) (ok : Bool) : List Event :=
  if ok then
    [Event.setLoading true, Event.write d, Event.toast "Saved" 3000,
      Event.setLoading false, Event.save d]
  else
    [Event.setLoading true, Event.write d]

/-- The `setSettings` arguments occurring in a trace, in order. -/
def writesOf : List Event → List ISettings
  | [] => []
  | Event.write s :: es => s :: writesOf es
  | _ :: es => writesOf es

/-- The toast messages with their durations occurring in a trace. -/
def toastsOf : List Event → List (String × Nat)
  | [] => []
  | Event.toast m n :: es => (m, n) :: toastsOf es
  | _ :: es => toastsOf es

/-- The `onSave` arguments occurring in a trace, in order. -/
def savesOf : List Event → List ISettings
  | [] => []
  | Event.save s :: es => s :: savesOf es
  | _ :: es => savesOf es

/-- The value of the loading flag after a trace, given its value
before. -/
def loadingAfter (b : Bool) : List Event → Bool
  | [] => b
  | Event.setLoading b₂ :: es => loadingAfter b₂ es
  | _ :: es => loadingAfter b es

/-! ## AutoTranslateCheckbox -/

/-- Signals a field widget can send to the form item wrapping it. -/
inductive CbEvent where
  | change (b : Bool)
  | blur
deriving DecidableEq, Repr

/-- The change handler of `AutoTranslateCheckbox`: it emits the new
checked state through `onChange` and then signals `onBlur`, both in the
same invocation. -/
def autoTranslateCheckboxOnChange (checked : Bool) : List CbEvent :=
  [CbEvent.change checked, CbEvent.blur]

/-- A concrete settings record used to instantiate theorems with
hypotheses. -/
def sampleSettings : ISettings :=
  { apiKeys := "sk-test"
    apiURL := "https://api.openai.com"
    autoTranslate := false
    defaultTranslateMode := "translate"
    defaultTargetLanguage := "zh-Hans"
    hotkey := "" }

/-- A concrete panel state whose snapshot has non-empty API keys and
differs from its baseline, used to instantiate theorems with
hypotheses. -/
def sampleState : PanelState :=
  { values := sampleSettings
    prevValues := { sampleSettings with apiKeys := "" }
    writes := [] }

/-! ## Claim theorems -/

/-- C1: on a blur event of the Settings form, a `setSettings` write is
performed if and only if the snapshot has a non-empty `apiKeys` string
and differs from the last-persisted baseline; when the write is
performed, `prevValues` becomes the written snapshot, and otherwise the
whole state (writes and baseline included) is unchanged. -/
theorem blur_autosave_guard (st : PanelState) :
    (blurGuard st →
      onBlur st =
        { st with
          writes := st.writes ++ [st.values]
          prevValues := st.values }) ∧
    (¬blurGuard st → onBlur st = st) := by
  constructor
  · intro h
    unfold onBlur
    rw [if_pos h]
  · intro h
    unfold onBlur
    rw [if_neg h]

/-- Witness for C1 at a concrete state satisfying the guard. -/
theorem blur_autosave_guard_witness :
    blurGuard sampleState ∧
      onBlur sampleState =
        { sampleState with
          writes := sampleState.writes ++ [sampleState.values]
          prevValues := sampleState.values } :=
  ⟨by decide, (blur_autosave_guard sampleState).1 (by decide)⟩

/-- C2: on an explicit submit with data `d` whose awaited write
fulfills, the handler trace is exactly: set the loading flag, persist
`d`, toast "Saved" for 3000 milliseconds, clear the loading flag, and
call `onSave` with `d`; in particular exactly one write of `d`, one
toast of duration 3000 and one `onSave` of `d` occur, in that order. -/
theorem submit_success_trace (d : ISettings) (ok : Bool) (h : ok = true) :
    onSubmmitEvents d ok =
      [Event.setLoading true, Event.write d, Event.toast "Saved" 3000,
        Event.setLoading false, Event.save d] ∧
    writesOf (onSubmmitEvents d ok) = [d] ∧
    toastsOf (onSubmmitEvents d ok) = [("Saved", 3000)] ∧
    savesOf (onSubmmitEvents d ok) = [d] := by
  subst h
  refine ⟨rfl, ?_, ?_, ?_⟩ <;>
    simp [onSubmmitEvents, writesOf, toastsOf, savesOf]

/-- Witness for C2 at a concrete snapshot and a fulfilled write. -/
theorem submit_success_trace_witness :
    onSubmmitEvents sampleSettings true =
      [Event.setLoading true, Event.write sampleSettings,
        Event.toast "Saved" 3000, Event.setLoading false,
        Event.save sampleSettings] ∧
    writesOf (onSubmmitEvents sampleSettings true) = [sampleSettings] ∧
    toastsOf (onSubmmitEvents sampleSettings true) = [("Saved", 3000)] ∧
    savesOf (onSubmmitEvents sampleSettings true) = [sampleSettings] :=
  submit_success_trace sampleSettings true rfl

/-- C3 counterexample: when the awaited `setSettings` rejects, the
submit handler aborts before `setLoading(false)`, so the loading flag is
NOT cleared after the write attempt, contradicting the claim that it is
cleared for every outcome. -/
theorem submit_failure_loading_cex :
    loadingAfter false (onSubmmitEvents sampleSettings false) = true := rfl

/-- C3 amended: after a fulfilled write the loading flag is cleared;
after a rejected write the handler aborts, the loading flag remains set,
and no toast or `onSave` callback occurs (the rejection is neither
caught nor surfaced by the handler). -/
theorem submit_loading_by_outcome (d : ISettings) :
    loadingAfter false (onSubmmitEvents d true) = false ∧
    loadingAfter false (onSubmmitEvents d false) = true ∧
    toastsOf (onSubmmitEvents d false) = [] ∧
    savesOf (onSubmmitEvents d false) = [] := by
  refine ⟨?_, ?_, ?_, ?_⟩ <;>
    simp [onSubmmitEvents, loadingAfter, toastsOf, savesOf]

/-- C4 counterexample: a hotkey value seeded from storage as "meta+k" is
re-committed verbatim on the transition to idle after a recording
session that captured zero keys, so a committed value CAN contain the
key name "meta" as a component. -/
theorem hotkey_meta_leak_cex :
    hasMetaComponent
      (stopEmit ((keysEffect [] (seedEffect "meta+k" [])).1)) = true := by
  decide

/-- C4 amended: every value committed by the keys-update effect during
recording is the "+"-join of a key list from which every key whose
lowercase form is "meta" has been removed; the transition-to-idle commit
re-emits the displayed list as-is and is meta-free only when that list
is, which can fail for a list seeded from an external value containing
"meta". -/
theorem recording_commit_meta_free (keys hotKeys : List String)
    (h : keys ≠ []) :
    (keysEffect keys hotKeys).2 =
      some (String.intercalate "+" (keysEffect keys hotKeys).1) ∧
    ∀ k ∈ (keysEffect keys hotKeys).1, jsToLower k ≠ "meta" := by
  have hl : 0 < keys.length := List.length_pos.mpr h
  unfold keysEffect
  rw [if_pos hl]
  refine ⟨rfl, ?_⟩
  intro k hk
  have := List.of_mem_filter hk
  simpa using this

/-- Witness for C4 amended at a recording set containing "meta". -/
theorem recording_commit_meta_free_witness :
    (keysEffect ["control", "meta", "k"] []).2 =
      some
        (String.intercalate "+" (keysEffect ["control", "meta", "k"] []).1) ∧
    ∀ k ∈ (keysEffect ["control", "meta", "k"] []).1,
      jsToLower k ≠ "meta" :=
  recording_commit_meta_free ["control", "meta", "k"] [] (by decide)

/-- C5 counterexample: with the displayed keys seeded from the external
value "ctrl+k", a recording session that captures zero keys commits the
previously displayed keys, not the empty string, on the transition to
idle. -/
theorem empty_capture_commit_cex :
    stopEmit ((keysEffect [] (seedEffect "ctrl+k" [])).1) ≠ "" := by
  decide

/-- C5 amended: a recording session that captures zero keys leaves the
displayed key list unchanged and emits nothing during recording; the
value committed on the transition to idle is the displayed list joined
with "+", which is the empty string when the displayed list is empty
(and only clears the hotkey in that case). -/
theorem empty_capture_commit (hotKeys : List String) :
    (keysEffect [] hotKeys).1 = hotKeys ∧
    (keysEffect [] hotKeys).2 = none ∧
    (hotKeys = [] → stopEmit hotKeys = "") := by
  refine ⟨rfl, rfl, ?_⟩
  intro h
  subst h
  rfl

/-- Witness for C5 amended at concrete displayed key lists. -/
theorem empty_capture_commit_witness :
    (keysEffect [] ["ctrl", "k"]).1 = ["ctrl", "k"] ∧
    stopEmit ([] : List String) = "" :=
  ⟨(empty_capture_commit ["ctrl", "k"]).1, (empty_capture_commit []).2.2 rfl⟩

/-- C6: a non-empty incoming external hotkey value re-seeds the
displayed key list by replacing "-" with "+", splitting on "+", trimming
each piece and dropping empty pieces; in particular "ctrl-k", "ctrl+k"
and "ctrl + k" all seed the list ["ctrl", "k"]. -/
theorem seed_parsing (v : String) (hotKeys : List String) (h : v ≠ "") :
    seedEffect v hotKeys = parseHotkeyValue v ∧
    parseHotkeyValue "ctrl-k" = ["ctrl", "k"] ∧
    parseHotkeyValue "ctrl+k" = ["ctrl", "k"] ∧
    parseHotkeyValue "ctrl + k" = ["ctrl", "k"] := by
  refine ⟨?_, by decide, by decide, by decide⟩
  unfold seedEffect
  rw [if_pos h]

/-- Witness for C6 at a concrete non-empty incoming value. -/
theorem seed_parsing_witness :
    seedEffect "ctrl-k" [] = parseHotkeyValue "ctrl-k" ∧
    parseHotkeyValue "ctrl-k" = ["ctrl", "k"] ∧
    parseHotkeyValue "ctrl+k" = ["ctrl", "k"] ∧
    parseHotkeyValue "ctrl + k" = ["ctrl", "k"] :=
  seed_parsing "ctrl-k" [] (by decide)

/-- C7: before the asynchronous settings load resolves, the form
snapshot holds the built-in defaults (empty API keys, the default URL,
the default auto-translate flag, the "translate" mode, the default
target language, empty hotkey) and the baseline equals it; after the
load resolves with the persisted record `s`, both the snapshot and the
baseline equal `s`. -/
theorem mount_defaults_then_load (dURL : String) (dAuto : Bool)
    (dLang : String) (s : ISettings) :
    (initPanel dURL dAuto dLang).values =
      { apiKeys := ""
        apiURL := dURL
        autoTranslate := dAuto
        defaultTranslateMode := "translate"
        defaultTargetLanguage := dLang
        hotkey := "" } ∧
    (initPanel dURL dAuto dLang).prevValues =
      (initPanel dURL dAuto dLang).values ∧
    (loadResolved (initPanel dURL dAuto dLang) s).values = s ∧
    (loadResolved (initPanel dURL dAuto dLang) s).prevValues = s :=
  ⟨rfl, rfl, rfl, rfl⟩

/-- C8: the change handler of `AutoTranslateCheckbox` emits the new
boolean through `onChange` and then signals `onBlur` in the same
invocation; consequently, once the toggled snapshot reaches the form
state, the blur fires the autosave write of the toggled snapshot
whenever the guard holds for it. -/
theorem checkbox_toggle_autosave (b : Bool) (st : PanelState)
    (hk : ({ st.values with autoTranslate := b } : ISettings).apiKeys ≠ "")
    (hne : ({ st.values with autoTranslate := b } : ISettings) ≠
      st.prevValues) :
    autoTranslateCheckboxOnChange b = [CbEvent.change b, CbEvent.blur] ∧
    onBlur (applyAutoTranslateChange st b) =
      { st with
        values := { st.values with autoTranslate := b }
        prevValues := { st.values with autoTranslate := b }
        writes := st.writes ++ [{ st.values with autoTranslate := b }] } := by
  refine ⟨rfl, ?_⟩
  have hg : blurGuard (applyAutoTranslateChange st b) := ⟨hk, hne⟩
  unfold onBlur
  rw [if_pos hg]
  rfl

/-- Witness for C8 at a concrete state where the toggle dirties the
snapshot. -/
theorem checkbox_toggle_autosave_witness :
    autoTranslateCheckboxOnChange true =
      [CbEvent.change true, CbEvent.blur] ∧
    onBlur
        (applyAutoTranslateChange
          { values := sampleSettings
            prevValues := sampleSettings
            writes := [] } true) =
      { values := { sampleSettings with autoTranslate := true }
        prevValues := { sampleSettings with autoTranslate := true }
        writes := [{ sampleSettings with autoTranslate := true }] } :=
  checkbox_toggle_autosave true
    { values := sampleSettings, prevValues := sampleSettings, writes := [] }
    (by decide) (by decide)

/-- C9: an explicit submit appends a write but never updates the
last-persisted baseline `prevValues` (nor the snapshot), so after a
submit of the current snapshot a later blur with the identical snapshot
still passes the guard and issues a second, redundant write of the same
record. -/
theorem submit_keeps_baseline (st : PanelState) (d : ISettings)
    (hk : st.values.apiKeys ≠ "") (hne : st.values ≠ st.prevValues) :
    (submitPanel st d).prevValues = st.prevValues ∧
    (submitPanel st d).values = st.values ∧
    onBlur (submitPanel st st.values) =
      { st with
        writes := st.writes ++ [st.values] ++ [st.values]
        prevValues := st.values } := by
  refine ⟨rfl, rfl, ?_⟩
  have hg : blurGuard (submitPanel st st.values) := ⟨hk, hne⟩
  unfold onBlur
  rw [if_pos hg]
  rfl

/-- Witness for C9 at a concrete dirty state. -/
theorem submit_keeps_baseline_witness :
    (submitPanel sampleState sampleSettings).prevValues =
      sampleState.prevValues ∧
    (submitPanel sampleState sampleSettings).values = sampleState.values ∧
    onBlur (submitPanel sampleState sampleState.values) =
      { sampleState with
        writes := sampleState.writes ++ [sampleState.values] ++
          [sampleState.values]
        prevValues := sampleState.values } :=
  submit_keeps_baseline sampleState sampleSettings (by decide) (by decide)

/-- C10: an incoming external hotkey value that is the empty string is
falsy, so the re-seeding effect of `HotkeyRecorder` leaves the displayed
key list unchanged; an externally cleared hotkey never clears the keys
already shown. -/
theorem seed_ignores_empty (hotKeys : List String) :
    seedEffect "" hotKeys = hotKeys := rfl

end OpenAITranslator
